import Mathlib

/-!
Formal model of `streamlit_app.py`, the single source file of the
CommitBuddy nutrition-advisor application.

The script collects form values, assembles them into a flat `user_info`
dictionary (Python `dict` with string keys), builds three task
descriptions by string interpolation, wires the three tasks into a
linear context chain, and hands them to an external crew library.

Modelling conventions:
* The Python dict literal at lines 221-235 is modelled as an association
  list `List (String × Value)` built in the source's key order, so that
  both the key set and the values are faithfully represented.
* Python truthiness on strings (`x or "None"`, `if goals`) is modelled
  explicitly: a string is falsy exactly when it is empty, a list exactly
  when it is empty, and `os.getenv` returning `None` is `Option.none`.
* The external widgets (Streamlit) only guarantee that captured values
  lie in the configured ranges/option lists; this boundary contract is
  recorded as `ValidFormInput`, derived from the widget configurations
  at lines 183-218 of the source.
* `crew.kickoff()` and the LLM/search calls are external; the model
  stops at the fully-assembled `Crew` value, and the button handler is
  modelled over an abstract pipeline result `Except ε String` since the
  source wraps the call in no `try` block.
-/

set_option autoImplicit false
set_option maxRecDepth 100000

namespace CommitBuddy

/-- A Python dict value occurring in `user_info`: the `age` entry is an
`int`, every other entry is a `str`. -/
inductive Value where
  | int : Int → Value
  | str : String → Value
deriving DecidableEq, Repr

/-- Rendering of a dict value inside an f-string, i.e. Python `str()`:
integers print in decimal, strings print verbatim. -/
def Value.render : Value → String
  | .int n => toString n
  | .str s => s

/-- Python `s or "None"` for a string `s`: the empty string is the only
falsy string, so it is replaced by the literal `"None"`; any other
string (including pure whitespace) is returned unchanged.
Source: lines 228-231 and 234. -/
def pyOrNone (s : String) : String :=
  if s = "" then "None" else s

/-- The raw values captured by the form widgets (lines 183-218), before
the `user_info` dict is assembled. `age` comes from a numeric input,
`goals` from a multiselect (a list of selected options), everything
else is a text or choice widget value. -/
structure FormInput where
  age : Int
  gender : String
  height : String
  weight : String
  activity_level : String
  goals : List String
  medical_conditions : String
  medications : String
  allergies : String
  food_preferences : String
  cooking_ability : String
  budget : String
  cultural_factors : String
deriving DecidableEq, Repr

/-- Configuration of the `st.number_input("Age", 1, 120, 25)` widget
(line 183). -/
structure NumberInputCfg where
  label : String
  minVal : Int
  maxVal : Int
  default : Int
deriving DecidableEq, Repr

/-- The age widget configuration from line 183. -/
def ageInput : NumberInputCfg := ⟨"Age", 1, 120, 25⟩

/-- Options of the gender selectbox (line 184). -/
def genderOptions : List String := ["Male", "Female", "Other"]

/-- Options of the activity-level radio (lines 188-192). -/
def activityOptions : List String :=
  ["Sedentary", "Lightly Active", "Moderately Active", "Very Active", "Extremely Active"]

/-- Options of the goals multiselect (lines 194-197). -/
def goalOptions : List String :=
  ["Weight Loss", "Weight Gain", "Maintenance", "Muscle Building", "General Health"]

/-- Options of the cooking-ability select slider (lines 208-211). -/
def cookingOptions : List String := ["Very Limited", "Basic", "Average", "Advanced"]

/-- Options of the budget select slider (lines 213-216). -/
def budgetOptions : List String := ["Very Limited", "Moderate", "Flexible"]

/-- Boundary contract of the Streamlit widgets: a numeric input stays
within its configured bounds and each choice widget yields one of its
configured options (each selected goal is one of the goal options).
Free-text widgets are unconstrained. -/
def ValidFormInput (f : FormInput) : Prop :=
  ageInput.minVal ≤ f.age ∧ f.age ≤ ageInput.maxVal ∧
  f.gender ∈ genderOptions ∧
  f.activity_level ∈ activityOptions ∧
  (∀ g ∈ f.goals, g ∈ goalOptions) ∧
  f.cooking_ability ∈ cookingOptions ∧
  f.budget ∈ budgetOptions

/-- The `user_info` dict assembled on every rerun (lines 221-235),
as an association list in the source's key order.  Demographics pass
through verbatim; `goals` is `", ".join(goals) if goals else
"General Health"`; the five optional free-text fields go through
Python `x or "None"`. -/
def build_user_info (f : FormInput) : List (String × Value) :=
  [ ("age", .int f.age),
    ("gender", .str f.gender),
    ("height", .str f.height),
    ("weight", .str f.weight),
    ("activity_level", .str f.activity_level),
    ("goals", .str (if f.goals.isEmpty then "General Health"
                    else String.intercalate ", " f.goals)),
    ("medical_conditions", .str (pyOrNone f.medical_conditions)),
    ("medications", .str (pyOrNone f.medications)),
    ("allergies", .str (pyOrNone f.allergies)),
    ("food_preferences", .str (pyOrNone f.food_preferences)),
    ("cooking_ability", .str f.cooking_ability),
    ("budget", .str f.budget),
    ("cultural_factors", .str (pyOrNone f.cultural_factors)) ]

/-- `user_info[k]` rendered into an f-string.  Every subscript in the
source uses a key that is present in the dict, so the fallback for a
missing key is never exercised. -/
def getV (d : List (String × Value)) (k : String) : String :=
  ((d.lookup k).getD (.str "")).render

/-- A concrete form submission in which every widget keeps its default
value: age 25, first/choice defaults for the selectors, empty text
areas, no goals selected. -/
def sampleForm : FormInput :=
  { age := 25
    gender := "Male"
    height := "5'10\""
    weight := "160 lbs"
    activity_level := "Sedentary"
    goals := []
    medical_conditions := ""
    medications := ""
    allergies := ""
    food_preferences := ""
    cooking_ability := "Very Limited"
    budget := "Very Limited"
    cultural_factors := "" }

/-- Claim C1: in the assembled record each blank optional field
(medical conditions, medications, allergies, food preferences,
cultural factors) becomes the literal string `"None"`, while the
demographic entries (age, gender, height, weight, activity level) are
passed through verbatim, unconditionally — in particular also when
height or weight is blank. -/
theorem blank_optional_fields_substituted (f : FormInput) :
    (f.medical_conditions = "" →
      (build_user_info f).lookup "medical_conditions" = some (.str "None")) ∧
    (f.medications = "" →
      (build_user_info f).lookup "medications" = some (.str "None")) ∧
    (f.allergies = "" →
      (build_user_info f).lookup "allergies" = some (.str "None")) ∧
    (f.food_preferences = "" →
      (build_user_info f).lookup "food_preferences" = some (.str "None")) ∧
    (f.cultural_factors = "" →
      (build_user_info f).lookup "cultural_factors" = some (.str "None")) ∧
    (build_user_info f).lookup "age" = some (.int f.age) ∧
    (build_user_info f).lookup "gender" = some (.str f.gender) ∧
    (build_user_info f).lookup "height" = some (.str f.height) ∧
    (build_user_info f).lookup "weight" = some (.str f.weight) ∧
    (build_user_info f).lookup "activity_level" = some (.str f.activity_level) := by
  refine ⟨fun h => ?_, fun h => ?_, fun h => ?_, fun h => ?_, fun h => ?_,
    rfl, rfl, rfl, rfl, rfl⟩ <;>
    simp [build_user_info, List.lookup, pyOrNone, h]

/-- Witness for C1: at the all-defaults submission (all optional text
areas blank, height and weight at their non-blank defaults) every
optional field is `"None"` and the demographics are verbatim. -/
theorem blank_optional_fields_substituted_witness :
    (build_user_info sampleForm).lookup "medical_conditions" = some (.str "None") ∧
    (build_user_info sampleForm).lookup "medications" = some (.str "None") ∧
    (build_user_info sampleForm).lookup "allergies" = some (.str "None") ∧
    (build_user_info sampleForm).lookup "food_preferences" = some (.str "None") ∧
    (build_user_info sampleForm).lookup "cultural_factors" = some (.str "None") ∧
    (build_user_info sampleForm).lookup "height" = some (.str "5'10\"") := by
  have h := blank_optional_fields_substituted sampleForm
  exact ⟨h.1 rfl, h.2.1 rfl, h.2.2.1 rfl, h.2.2.2.1 rfl, h.2.2.2.2.1 rfl,
    h.2.2.2.2.2.2.2.1⟩

/-- Claim C2: the `goals` entry of the assembled record is the selected
goals joined by `", "` when the selection is non-empty, and the literal
`"General Health"` when it is empty; in particular `[]` yields
`"General Health"` and `["Weight Loss", "Muscle Building"]` yields
`"Weight Loss, Muscle Building"`. -/
theorem goals_join_or_default (f : FormInput) :
    (f.goals = [] →
      (build_user_info f).lookup "goals" = some (.str "General Health")) ∧
    (f.goals ≠ [] →
      (build_user_info f).lookup "goals" =
        some (.str (String.intercalate ", " f.goals))) ∧
    (f.goals = ["Weight Loss", "Muscle Building"] →
      (build_user_info f).lookup "goals" =
        some (.str "Weight Loss, Muscle Building")) := by
  refine ⟨fun h => ?_, fun h => ?_, fun h => ?_⟩
  · simp [build_user_info, List.lookup, h, String.intercalate]
  · simp [build_user_info, List.lookup, h, String.intercalate]
  · simp [build_user_info, List.lookup, h, String.intercalate]
    rfl

/-- Witness for C2: the empty selection yields `"General Health"` and
the selection `["Weight Loss", "Muscle Building"]` yields
`"Weight Loss, Muscle Building"`. -/
theorem goals_join_or_default_witness :
    (build_user_info sampleForm).lookup "goals" = some (.str "General Health") ∧
    (build_user_info { sampleForm with goals := ["Weight Loss", "Muscle Building"] }).lookup
      "goals" = some (.str "Weight Loss, Muscle Building") :=
  ⟨(goals_join_or_default sampleForm).1 rfl,
   (goals_join_or_default { sampleForm with goals := ["Weight Loss", "Muscle Building"] }).2.2 rfl⟩

/-- Outcome of the module-level startup section (lines 10-17): either
the script stops after rendering a blocking error message (`st.error`
followed by `st.stop()`, which raises a script-control signal caught by
the hosting framework — the hosting process keeps running and no exit
code is produced, but nothing after it, in particular the form, is
rendered), or execution proceeds to render the form. -/
inductive StartupOutcome where
  | error_stop : String → StartupOutcome
  | proceed : StartupOutcome
deriving DecidableEq, Repr

/-- The blocking error message of line 16. -/
def missingKeysMsg : String := "Missing API keys. Add SERPER_API_KEY and GROQ_API_KEY."

/-- Python falsiness of an `os.getenv` result: `None` (variable absent)
and the empty string are falsy, every other string is truthy. -/
def pyFalsyEnv : Option String → Bool
  | none => true
  | some s => s = ""

/-- The module-level credential check (lines 12-17): `os.getenv` each
key, and stop with a blocking error when `not SERPER_API_KEY or not
GROQ_API_KEY`. The environment is a partial map from variable names to
values. -/
def startup (env : String → Option String) : StartupOutcome :=
  if pyFalsyEnv (env "SERPER_API_KEY") || pyFalsyEnv (env "GROQ_API_KEY")
  then .error_stop missingKeysMsg
  else .proceed

/-- An environment in which both credentials are present (set), but
`SERPER_API_KEY` is set to the empty string. -/
def envEmptySerper : String → Option String := fun k =>
  if k = "SERPER_API_KEY" then some ""
  else if k = "GROQ_API_KEY" then some "gsk-test" else none

/-- Counterexample to claim C4 as stated: in `envEmptySerper` both
credentials are present in the environment (`Option.isSome` both), yet
startup takes the blocking error branch, contradicting "if both are
present, this error branch is never taken".  The check tests Python
truthiness, not presence, so a present-but-empty value also trips it. -/
theorem present_empty_credential_still_stops :
    (envEmptySerper "SERPER_API_KEY").isSome = true ∧
    (envEmptySerper "GROQ_API_KEY").isSome = true ∧
    startup envEmptySerper = .error_stop missingKeysMsg :=
  ⟨rfl, rfl, rfl⟩

/-- Claim C4 (amended): if either credential is absent from the
environment or set to the empty string, startup stops the script with
the blocking error message before the form is rendered; if both are
present and non-empty, the error branch is never taken and startup
proceeds. -/
theorem startup_stops_iff_credential_falsy (env : String → Option String) :
    ((env "SERPER_API_KEY" = none ∨ env "SERPER_API_KEY" = some "" ∨
      env "GROQ_API_KEY" = none ∨ env "GROQ_API_KEY" = some "") →
      startup env = .error_stop missingKeysMsg) ∧
    (∀ s g : String, s ≠ "" → g ≠ "" →
      env "SERPER_API_KEY" = some s → env "GROQ_API_KEY" = some g →
      startup env = .proceed) := by
  constructor
  · intro h
    rcases h with h | h | h | h <;> simp [startup, pyFalsyEnv, h]
  · intro s g hs hg hes heg
    simp [startup, pyFalsyEnv, hes, heg, hs, hg]

/-- Witness for the amended C4, at two concrete environments: the empty
environment (both keys absent) stops with the error message, and an
environment holding two non-empty keys proceeds. -/
theorem startup_stops_iff_credential_falsy_witness :
    startup (fun _ => none) = .error_stop missingKeysMsg ∧
    startup (fun k => if k = "SERPER_API_KEY" then some "serper-key"
                      else if k = "GROQ_API_KEY" then some "gsk-key" else none) = .proceed :=
  ⟨(startup_stops_iff_credential_falsy (fun _ => none)).1 (Or.inl rfl),
   (startup_stops_iff_credential_falsy _).2 "serper-key" "gsk-key"
     (by decide) (by decide) rfl rfl⟩

/-- An outbound tool handed to agents.  The module level of the source
creates exactly one tool, `search_tool = SerperDevTool()` (line 19);
`serperDev` is its model. -/
inductive Tool where
  | serperDev : Tool
deriving DecidableEq, Repr

/-- The single module-level search tool instance (line 19). -/
def search_tool : Tool := .serperDev

/-- The hosted-LLM client configuration (`crewai.LLM`). -/
structure LLM where
  model : String
  api_key : String
deriving DecidableEq, Repr

/-- `get_llm` (lines 66-70): an LLM client bound to the hosted model
identifier `"groq/llama-3.1-8b-instant"` and the Groq credential. -/
def get_llm (groq_api_key : String) : LLM :=
  { model := "groq/llama-3.1-8b-instant", api_key := groq_api_key }

/-- A role-bound agent (`crewai.Agent`): role, goal, backstory, the
tools it may call, and the LLM client it is bound to.  An agent created
without a `tools` argument has no tools. -/
structure Agent where
  role : String
  goal : String
  backstory : String
  tools : List Tool
  llm : LLM
deriving DecidableEq, Repr

/-- `create_agents` (lines 75-101): one shared LLM client, the
nutritionist and the medical specialist each carrying the module-level
search tool, the diet planner carrying no tools. -/
def create_agents (groq_api_key : String) : Agent × Agent × Agent :=
  let llm := get_llm groq_api_key
  let nutritionist : Agent :=
    { role := "Nutrition Specialist"
      goal := "Develop personalized nutrition recommendations"
      backstory := "Expert in nutrition science"
      tools := [search_tool]
      llm := llm }
  let medical_specialist : Agent :=
    { role := "Medical Nutrition Therapist"
      goal := "Analyze medical conditions and diet restrictions"
      backstory := "Clinical nutrition expert"
      tools := [search_tool]
      llm := llm }
  let diet_planner : Agent :=
    { role := "Therapeutic Diet Planner"
      goal := "Create enjoyable meal plans"
      backstory := "Transforms clinical advice into meals"
      tools := []
      llm := llm }
  (nutritionist, medical_specialist, diet_planner)

/-- A unit of work (`crewai.Task`): a description, the agent bound to
it, the list of prior tasks whose outputs it receives as context
(empty when the source omits the `context` argument), and the expected
output. -/
inductive Task where
  | mk (description : String) (agent : Agent) (context : List Task)
       (expected_output : String) : Task

/-- The description of a task. -/
def Task.description : Task → String
  | .mk d _ _ _ => d

/-- The agent a task is bound to. -/
def Task.agent : Task → Agent
  | .mk _ a _ _ => a

/-- The prior tasks whose outputs a task receives as context. -/
def Task.context : Task → List Task
  | .mk _ _ c _ => c

/-- The expected output of a task. -/
def Task.expected_output : Task → String
  | .mk _ _ _ e => e

/-- `create_tasks` (lines 106-144): the three task descriptions are
built by interpolating `user_info` entries into fixed f-string
templates (the triple-quoted literals keep their newlines and
eight-space indentation); the medical task receives the demographics
task as context and the diet-plan task receives both prior tasks. -/
def create_tasks (nutritionist medical_specialist diet_planner : Agent)
    (user_info : List (String × Value)) : List Task :=
  let demographics := Task.mk
    ("\n        Age: " ++ getV user_info "age" ++
     "\n        Gender: " ++ getV user_info "gender" ++
     "\n        Height: " ++ getV user_info "height" ++
     "\n        Weight: " ++ getV user_info "weight" ++
     "\n        Activity Level: " ++ getV user_info "activity_level" ++
     "\n        Goals: " ++ getV user_info "goals" ++
     "\n        ")
    nutritionist [] "Detailed calorie requirements and nutrition breakdown"
  let medical := Task.mk
    ("\n        Conditions: " ++ getV user_info "medical_conditions" ++
     "\n        Medications: " ++ getV user_info "medications" ++
     "\n        Allergies: " ++ getV user_info "allergies" ++
     "\n        ")
    medical_specialist [demographics]
    "Medical diet restrictions and safe food recommendations"
  let diet_plan := Task.mk
    ("\n        Food Preferences: " ++ getV user_info "food_preferences" ++
     "\n        Cooking Ability: " ++ getV user_info "cooking_ability" ++
     "\n        Budget: " ++ getV user_info "budget" ++
     "\n        Cultural Factors: " ++ getV user_info "cultural_factors" ++
     "\n        ")
    diet_planner [demographics, medical]
    "Complete personalized diet meal plan"
  [demographics, medical, diet_plan]

/-- The external orchestration construct: a list of agents and a list
of tasks handed to it for sequential execution. -/
structure Crew where
  agents : List Agent
  tasks : List Task

/-- `run_nutrition_advisor` (lines 150-159) up to the external
`crew.kickoff()` call: the fully assembled crew handed to the external
library. -/
def run_nutrition_advisor (groq_api_key : String)
    (user_info : List (String × Value)) : Crew :=
  let a := create_agents groq_api_key
  { agents := [a.1, a.2.1, a.2.2]
    tasks := create_tasks a.1 a.2.1 a.2.2 user_info }

/-- `hay` contains `needle` as a contiguous substring. -/
def containsText (hay needle : String) : Prop :=
  ∃ pre post : String, hay = pre ++ needle ++ post

/-- A string is at most as long as any string containing it. -/
theorem length_le_of_containsText {hay needle : String}
    (h : containsText hay needle) : needle.length ≤ hay.length := by
  obtain ⟨p, q, hpq⟩ := h
  subst hpq
  simp [String.length_append]
  omega

/-- The descriptions of the three tasks assembled for the all-defaults
form submission, in order. -/
def sampleDescriptions : List String :=
  (run_nutrition_advisor "gsk-test" (build_user_info sampleForm)).tasks.map Task.description

/-- Counterexample to claim C3 as stated: at the all-defaults form
submission, the second (medical) task description does not contain the
full text of the first (demographics) task description — the second
description is even shorter than the first.  The accumulation happens
through the `context` references, not through textual inclusion in the
descriptions. -/
theorem second_description_omits_first_description :
    ¬ containsText (sampleDescriptions.getD 1 "") (sampleDescriptions.getD 0 "") := by
  intro h
  exact absurd (length_le_of_containsText h) (by decide)

/-- Claim C3 (amended): the three tasks are generated in the fixed
order demographics, medical, diet plan; the second task carries the
first task as its context and the third task carries the first and
second tasks as its context (so each later stage receives the prior
stages' outputs — the descriptions themselves do not textually include
the earlier descriptions). -/
theorem tasks_fixed_order_and_context_chain
    (nutritionist medical_specialist diet_planner : Agent)
    (user_info : List (String × Value)) :
    ∃ demographics medical diet_plan : Task,
      create_tasks nutritionist medical_specialist diet_planner user_info =
        [demographics, medical, diet_plan] ∧
      demographics.agent = nutritionist ∧
      medical.agent = medical_specialist ∧
      diet_plan.agent = diet_planner ∧
      demographics.context = [] ∧
      medical.context = [demographics] ∧
      diet_plan.context = [demographics, medical] :=
  ⟨_, _, _, rfl, rfl, rfl, rfl, rfl, rfl, rfl⟩

/-- Claim C6: each of the thirteen record fields is interpolated into
exactly one of three fixed templates — the first holds age, gender,
height, weight, activity level and goals, the second holds medical
conditions, medications and allergies, the third holds food
preferences, cooking ability, budget and cultural factors — and the
surrounding template text (the constants below) does not depend on the
record or the agents. -/
theorem descriptions_are_fixed_interpolation_templates :
    ∃ a0 a1 a2 a3 a4 a5 a6 b0 b1 b2 b3 c0 c1 c2 c3 c4 : String,
      ∀ (nutritionist medical_specialist diet_planner : Agent)
        (u : List (String × Value)),
        ((create_tasks nutritionist medical_specialist diet_planner u).map
            Task.description).getD 0 "" =
          a0 ++ getV u "age" ++ a1 ++ getV u "gender" ++ a2 ++ getV u "height" ++
          a3 ++ getV u "weight" ++ a4 ++ getV u "activity_level" ++
          a5 ++ getV u "goals" ++ a6 ∧
        ((create_tasks nutritionist medical_specialist diet_planner u).map
            Task.description).getD 1 "" =
          b0 ++ getV u "medical_conditions" ++ b1 ++ getV u "medications" ++
          b2 ++ getV u "allergies" ++ b3 ∧
        ((create_tasks nutritionist medical_specialist diet_planner u).map
            Task.description).getD 2 "" =
          c0 ++ getV u "food_preferences" ++ c1 ++ getV u "cooking_ability" ++
          c2 ++ getV u "budget" ++ c3 ++ getV u "cultural_factors" ++ c4 :=
  ⟨"\n        Age: ", "\n        Gender: ", "\n        Height: ",
   "\n        Weight: ", "\n        Activity Level: ", "\n        Goals: ",
   "\n        ",
   "\n        Conditions: ", "\n        Medications: ", "\n        Allergies: ",
   "\n        ",
   "\n        Food Preferences: ", "\n        Cooking Ability: ",
   "\n        Budget: ", "\n        Cultural Factors: ", "\n        ",
   fun _ _ _ _ => ⟨rfl, rfl, rfl⟩⟩

/-- Claim C7: the crew receives the tasks in the fixed order
demographics (nutritionist), medical (medical specialist), diet plan
(diet planner); the medical task's context is exactly the demographics
task and the diet-plan task's context is exactly the demographics and
medical tasks — equivalently, every task's context is exactly the list
of tasks that precede it in the crew's order, a strictly sequential
linear dependency chain. -/
theorem crew_linear_dependency_chain (groq_api_key : String)
    (u : List (String × Value)) :
    ∃ demographics medical diet_plan : Task,
      (run_nutrition_advisor groq_api_key u).tasks =
        [demographics, medical, diet_plan] ∧
      demographics.agent.role = "Nutrition Specialist" ∧
      medical.agent.role = "Medical Nutrition Therapist" ∧
      diet_plan.agent.role = "Therapeutic Diet Planner" ∧
      medical.context = [demographics] ∧
      diet_plan.context = [demographics, medical] ∧
      ∀ i : Fin (run_nutrition_advisor groq_api_key u).tasks.length,
        ((run_nutrition_advisor groq_api_key u).tasks.get i).context =
          (run_nutrition_advisor groq_api_key u).tasks.take i.val := by
  refine ⟨_, _, _, rfl, rfl, rfl, rfl, rfl, rfl, ?_⟩
  rintro ⟨v, hv⟩
  have hv3 : v < 3 := hv
  interval_cases v <;> rfl

/-- Claim C8: a single search tool instance and a single model
identifier: the crew's three agents carry the tool lists
`[search_tool]`, `[search_tool]`, `[]` (one shared tool object, the
diet planner none), every agent — and hence each of the three
completion-producing tasks — is bound to the model identifier
`"groq/llama-3.1-8b-instant"`, and `get_llm` always produces that
identifier. -/
theorem one_search_tool_and_one_model (groq_api_key : String)
    (u : List (String × Value)) :
    (run_nutrition_advisor groq_api_key u).agents.map Agent.tools =
      [[search_tool], [search_tool], []] ∧
    (run_nutrition_advisor groq_api_key u).agents.map (fun a => a.llm.model) =
      ["groq/llama-3.1-8b-instant", "groq/llama-3.1-8b-instant",
       "groq/llama-3.1-8b-instant"] ∧
    (run_nutrition_advisor groq_api_key u).tasks.map (fun t => t.agent.llm.model) =
      ["groq/llama-3.1-8b-instant", "groq/llama-3.1-8b-instant",
       "groq/llama-3.1-8b-instant"] ∧
    (get_llm groq_api_key).model = "groq/llama-3.1-8b-instant" :=
  ⟨rfl, rfl, rfl, rfl⟩

/-- Claim C9: the `"None"` substitution applies exactly to the empty
string: every non-empty value of an optional free-text field — in
particular a value consisting only of whitespace — passes into the
record verbatim, and the enumerated-choice fields (gender, activity
level, cooking ability, budget) and the numeric age field are never
substituted. -/
theorem none_substitution_exactly_on_empty (f : FormInput) :
    (f.medical_conditions ≠ "" →
      (build_user_info f).lookup "medical_conditions" =
        some (.str f.medical_conditions)) ∧
    (f.medications ≠ "" →
      (build_user_info f).lookup "medications" = some (.str f.medications)) ∧
    (f.allergies ≠ "" →
      (build_user_info f).lookup "allergies" = some (.str f.allergies)) ∧
    (f.food_preferences ≠ "" →
      (build_user_info f).lookup "food_preferences" =
        some (.str f.food_preferences)) ∧
    (f.cultural_factors ≠ "" →
      (build_user_info f).lookup "cultural_factors" =
        some (.str f.cultural_factors)) ∧
    (build_user_info f).lookup "gender" = some (.str f.gender) ∧
    (build_user_info f).lookup "activity_level" = some (.str f.activity_level) ∧
    (build_user_info f).lookup "cooking_ability" = some (.str f.cooking_ability) ∧
    (build_user_info f).lookup "budget" = some (.str f.budget) ∧
    (build_user_info f).lookup "age" = some (.int f.age) := by
  refine ⟨fun h => ?_, fun h => ?_, fun h => ?_, fun h => ?_, fun h => ?_,
    rfl, rfl, rfl, rfl, rfl⟩
  · simp [build_user_info, List.lookup, pyOrNone, h]
  · simp [build_user_info, List.lookup, pyOrNone, h]
  · simp [build_user_info, List.lookup, pyOrNone, h]
  · simp [build_user_info, List.lookup, pyOrNone, h]
  · simp [build_user_info, List.lookup, pyOrNone, h]

/-- A submission whose optional text areas hold only whitespace. -/
def whitespaceForm : FormInput :=
  { sampleForm with
    medical_conditions := " "
    medications := "   "
    allergies := " "
    food_preferences := " "
    cultural_factors := " " }

/-- Witness for C9: whitespace-only values are truthy in Python, so
they pass into the record verbatim, with no `"None"` substitution. -/
theorem none_substitution_exactly_on_empty_witness :
    (build_user_info whitespaceForm).lookup "medical_conditions" = some (.str " ") ∧
    (build_user_info whitespaceForm).lookup "medications" = some (.str "   ") ∧
    (build_user_info whitespaceForm).lookup "gender" = some (.str "Male") := by
  have h := none_substitution_exactly_on_empty whitespaceForm
  exact ⟨h.1 (by decide), h.2.1 (by decide), h.2.2.2.2.2.1⟩

/-- Claim C10: the assembled record has exactly the thirteen keys in
the source's order; the age entry is the captured integer, which the
widget contract keeps between the configured bounds 1 and 120 (widget
default 25); and the four enumerated entries are drawn verbatim from
their fixed option lists. -/
theorem record_keys_and_enumerations (f : FormInput) (hf : ValidFormInput f) :
    (build_user_info f).map Prod.fst =
      ["age", "gender", "height", "weight", "activity_level", "goals",
       "medical_conditions", "medications", "allergies", "food_preferences",
       "cooking_ability", "budget", "cultural_factors"] ∧
    ((build_user_info f).map Prod.fst).length = 13 ∧
    (build_user_info f).lookup "age" = some (.int f.age) ∧
    ageInput.minVal ≤ f.age ∧ f.age ≤ ageInput.maxVal ∧
    ageInput = ⟨"Age", 1, 120, 25⟩ ∧
    (build_user_info f).lookup "gender" = some (.str f.gender) ∧
    f.gender ∈ genderOptions ∧
    (build_user_info f).lookup "activity_level" = some (.str f.activity_level) ∧
    f.activity_level ∈ activityOptions ∧
    (build_user_info f).lookup "cooking_ability" = some (.str f.cooking_ability) ∧
    f.cooking_ability ∈ cookingOptions ∧
    (build_user_info f).lookup "budget" = some (.str f.budget) ∧
    f.budget ∈ budgetOptions :=
  ⟨rfl, rfl, rfl, hf.1, hf.2.1, rfl, rfl, hf.2.2.1, rfl, hf.2.2.2.1, rfl,
   hf.2.2.2.2.2.1, rfl, hf.2.2.2.2.2.2⟩

/-- Witness for C10 at the all-defaults submission, which satisfies the
widget contract. -/
theorem record_keys_and_enumerations_witness :
    (build_user_info sampleForm).map Prod.fst =
      ["age", "gender", "height", "weight", "activity_level", "goals",
       "medical_conditions", "medications", "allergies", "food_preferences",
       "cooking_ability", "budget", "cultural_factors"] ∧
    sampleForm.gender ∈ genderOptions := by
  have h := record_keys_and_enumerations sampleForm
    ⟨by decide, by decide, by decide, by decide,
     by intro g hg; simp [sampleForm] at hg, by decide, by decide⟩
  exact ⟨h.1, h.2.2.2.2.2.2.2.1⟩

/-- A rendering action performed by the submit branch of `app`
(lines 238-244). -/
inductive RenderAction where
  | success : String → RenderAction
  | markdown : String → RenderAction
deriving DecidableEq, Repr

/-- The body of the `st.button("Generate Nutrition Plan")` branch
(lines 238-244): it calls the pipeline and then renders a success
message followed by the result.  The source wraps the call in no
`try` block, so the handler is modelled in the `Except` monad over an
abstract exception type `ε`: a pipeline failure short-circuits the
handler and propagates to the caller unchanged. -/
def button_handler (ε : Type) (kick : Except ε String) : Except ε (List RenderAction) := do
  let result ← kick
  pure [RenderAction.success "Plan Generated!", RenderAction.markdown result]

/-- Claim C5: the submit branch contains no error handling: any
exception raised by the external pipeline call propagates uncaught and
unchanged to the caller, and in that case no render action — in
particular neither the success message nor the result — is produced;
only a successful pipeline result yields the success message and the
rendered result. -/
theorem pipeline_errors_propagate_unhandled :
    (∀ (ε : Type) (e : ε), button_handler ε (.error e) = .error e) ∧
    (∀ (ε : Type) (r : String), button_handler ε (.ok r) =
      .ok [RenderAction.success "Plan Generated!", RenderAction.markdown r]) :=
  ⟨fun _ _ => rfl, fun _ _ => rfl⟩

end CommitBuddy
